import Mathlib

/-!
# Multi-sensor gauge sketch (`src/main.cpp`): embedding and properties

The sketch keeps three sensor channels in a global array, draws the active one
as a round gauge, and in `loop()` checks three timers (value refresh 5000 ms,
sensor rotation 7000 ms, redraw 6900 ms) against `millis()`.

Modelling choices:
* `float` quantities are exact rationals (`ℚ`); a division whose denominator is
  zero has no value in exact arithmetic and is `none` (see `fdiv`);
* `unsigned long` timestamps are naturals with explicit reduction modulo `2^32`
  (the sketch targets the ESP32, where `unsigned long` has 32 bits);
* `int currentSensor` is an `Int`, `%` is C's truncating remainder `Int.tmod`;
* indexing `sensors[i]` outside `0..2` is undefined behaviour and is `none`;
* what `drawGauge` sends to the display is summarised by a `Frame`: the angles
  of the scale marks, the clamped percentage, the needle angle and the channel
  data shown as text.  Pixel coordinates (`cos`, `sin`, float-to-int
  conversion) and `sprintf` text are floating-point and are not modelled;
* the values returned by `random(..)` are inputs of the step (`RandomDraws`).
-/

namespace TFTGauge

/-! ## Data model -/

/-- Display colours used by the sketch (`GC9A01A_*` constants of the driver). -/
inductive Color where
  | black | white | red | blue | green | cyan
deriving DecidableEq, Repr

/-- The struct `Sensor` of the sketch. -/
structure Sensor where
  name : String
  value : ℚ
  minVal : ℚ
  maxVal : ℚ
  unit : String
  color : Color
deriving DecidableEq, Repr

/-- Brace initialisation of a `Sensor`, as in the initialiser of `sensors`.
The struct has no constructor body, so the initialisation stores the six fields
and cannot report an error; the result type makes that explicit. -/
def makeSensor (name : String) (value minVal maxVal : ℚ) (unit : String)
    (color : Color) : Except String Sensor :=
  Except.ok { name := name, value := value, minVal := minVal, maxVal := maxVal,
              unit := unit, color := color }

/-- A C array `Sensor[3]`. -/
structure SensorArray where
  s0 : Sensor
  s1 : Sensor
  s2 : Sensor
deriving DecidableEq, Repr

/-- Read of `sensors[i]` for an `int` index; outside `0..2` the read is
undefined behaviour, modelled as `none`. -/
def SensorArray.get? (a : SensorArray) (i : Int) : Option Sensor :=
  if i = 0 then some a.s0
  else if i = 1 then some a.s1
  else if i = 2 then some a.s2
  else none

/-- The global `sensors` with its initial contents. -/
def sensors : SensorArray :=
  { s0 := { name := "Temperature", value := 0, minVal := 0, maxVal := 100,
            unit := "C", color := Color.red }
    s1 := { name := "Humidity", value := 0, minVal := 0, maxVal := 100,
            unit := "%", color := Color.blue }
    s2 := { name := "Pressure", value := 0, minVal := 900, maxVal := 1100,
            unit := "hPa", color := Color.green } }

/-- Rotation interval in milliseconds. -/
def SWITCH_INTERVAL : Nat := 7000

/-- Number of values of an `unsigned long` (32 bits on the ESP32). -/
def ULONG_MOD : Nat := 2 ^ 32

/-- The mutable globals and function-local statics of the sketch. -/
structure State where
  sensors : SensorArray
  currentSensor : Int
  lastSwitchTime : Nat
  lastUpdateTime : Nat
  lastRedrawTime : Nat
deriving DecidableEq, Repr

/-- Values of the globals and statics before `setup()` runs. -/
def initialState : State :=
  { sensors := sensors, currentSensor := 0, lastSwitchTime := 0,
    lastUpdateTime := 0, lastRedrawTime := 0 }

/-! ## drawGauge -/

/-- Division of two `float`s in exact arithmetic: no value when the
denominator is zero (the hardware yields an infinity or a NaN there). -/
def fdiv (a b : ℚ) : Option ℚ :=
  if b = 0 then none else some (a / b)

/-- Modelled from the spec: the Arduino core's `constrain(amt, low, high)`
is not part of the sources; the spec says the percentage is "clamped to
`[0,1]`" and that "values outside range saturate".  This is the usual
definition `amt < low ? low : (amt > high ? high : amt)`. -/
def constrain (amt low high : ℚ) : ℚ :=
  if amt < low then low else if amt > high then high else amt

/-- The first assignment to `percentage` in `drawGauge`:
`(sensor.value - sensor.minVal) / (sensor.maxVal - sensor.minVal)`. -/
def rawPercentage (sensor : Sensor) : Option ℚ :=
  fdiv (sensor.value - sensor.minVal) (sensor.maxVal - sensor.minVal)

/-- The variable `percentage` after `percentage = constrain(percentage, 0, 1)`. -/
def percentage (sensor : Sensor) : Option ℚ :=
  (rawPercentage sensor).map (fun p => constrain p 0 1)

/-- The expression `225 - (percentage * 270)` assigned to `needleAngle`. -/
def needleAngle (percentage : ℚ) : ℚ :=
  225 - (percentage * 270)

/-- The expression `225 - (i * 27)` of the scale-mark loop: integer
arithmetic, then conversion to `float`. -/
def scaleMarkAngle (i : Int) : ℚ :=
  ((225 - (i * 27) : Int) : ℚ)

/-- The loop `for (int i = 0; i <= 10; i++)` of `drawGauge`, from a given
value of `i`: the angle of each mark drawn, in drawing order. -/
def scaleMarksFrom (i : Int) : List ℚ :=
  if i ≤ 10 then scaleMarkAngle i :: scaleMarksFrom (i + 1) else []
termination_by (11 - i).toNat
decreasing_by omega

/-- Angles of the marks drawn by the scale-mark loop. -/
def scaleMarks : List ℚ := scaleMarksFrom 0

/-- What one call of `drawGauge` shows. -/
structure Frame where
  sensorIndex : Int
  scaleMarks : List ℚ
  percentage : Option ℚ
  needleAngle : Option ℚ
  needleColor : Color
  name : String
  value : ℚ
  unit : String
  minVal : ℚ
  maxVal : ℚ
deriving DecidableEq, Repr

/-- The function `drawGauge(sensorIndex)` on a given contents of `sensors`. -/
def drawGauge (a : SensorArray) (sensorIndex : Int) : Option Frame := do
  let sensor ← a.get? sensorIndex
  let pct := percentage sensor
  some { sensorIndex := sensorIndex
         scaleMarks := scaleMarks
         percentage := pct
         needleAngle := pct.map needleAngle
         needleColor := sensor.color
         name := sensor.name
         value := sensor.value
         unit := sensor.unit
         minVal := sensor.minVal
         maxVal := sensor.maxVal }

/-! ## updateSensorValues, setup, loop -/

/-- Results of the three calls of `random` in `updateSensorValues`, in order. -/
structure RandomDraws where
  r0 : Int
  r1 : Int
  r2 : Int
deriving DecidableEq, Repr

/-- The function `updateSensorValues`: each `value` becomes a draw divided by
`10.0`. -/
def updateSensorValues (a : SensorArray) (d : RandomDraws) : SensorArray :=
  { s0 := { a.s0 with value := (d.r0 : ℚ) / 10 }
    s1 := { a.s1 with value := (d.r1 : ℚ) / 10 }
    s2 := { a.s2 with value := (d.r2 : ℚ) / 10 } }

/-- Observable actions of `setup` and `loop`. -/
inductive Event where
  | startupLogged
  | readyLogged
  | valuesLogged (n0 : String) (v0 : ℚ) (n1 : String) (v1 : ℚ) (n2 : String) (v2 : ℚ)
  | gaugeDrawn (f : Frame)
  | sensorSwitched (index : Int) (name : String)
deriving DecidableEq, Repr

/-- Unsigned 32-bit subtraction `a - b`. -/
def usub32 (a b : Nat) : Nat :=
  (a + (ULONG_MOD - b % ULONG_MOD)) % ULONG_MOD

/-- The test `currentTime - lastFired >= interval` on `unsigned long`. -/
def timerExpired (currentTime lastFired interval : Nat) : Bool :=
  decide (interval ≤ usub32 currentTime lastFired)

/-- The function `setup()`; `now` is the value returned by `millis()`. -/
def setup (s : State) (now : Nat) (d : RandomDraws) : Option (State × List Event) := do
  let a := updateSensorValues s.sensors d
  let f ← drawGauge a s.currentSensor
  some ({ s with sensors := a, lastSwitchTime := now },
        [Event.startupLogged, Event.gaugeDrawn f, Event.readyLogged])

/-- First block of `loop()`: the value-refresh timer. -/
def refreshStep (s : State) (currentTime : Nat) (d : RandomDraws) : State × List Event :=
  if timerExpired currentTime s.lastUpdateTime 5000 then
    let a := updateSensorValues s.sensors d
    ({ s with sensors := a, lastUpdateTime := currentTime },
     [Event.valuesLogged a.s0.name a.s0.value a.s1.name a.s1.value a.s2.name a.s2.value])
  else (s, [])

/-- Second block of `loop()`: the sensor-rotation timer. -/
def rotationStep (s : State) (currentTime : Nat) : Option (State × List Event) :=
  if timerExpired currentTime s.lastSwitchTime SWITCH_INTERVAL then do
    let next := Int.tmod (s.currentSensor + 1) 3
    let f ← drawGauge s.sensors next
    let shown ← s.sensors.get? next
    some ({ s with currentSensor := next, lastSwitchTime := currentTime },
          [Event.gaugeDrawn f, Event.sensorSwitched next shown.name])
  else some (s, [])

/-- Third block of `loop()`: the redraw timer. -/
def redrawStep (s : State) (currentTime : Nat) : Option (State × List Event) :=
  if timerExpired currentTime s.lastRedrawTime 6900 then do
    let f ← drawGauge s.sensors s.currentSensor
    some ({ s with lastRedrawTime := currentTime }, [Event.gaugeDrawn f])
  else some (s, [])

/-- One iteration of `loop()`; `currentTime` is the value returned by
`millis()`, `d` the draws `random` would return in this iteration. -/
def loop (s : State) (currentTime : Nat) (d : RandomDraws) : Option (State × List Event) := do
  let r1 := refreshStep s currentTime d
  let r2 ← rotationStep r1.1 currentTime
  let r3 ← redrawStep r2.1 currentTime
  some (r3.1, r1.2 ++ r2.2 ++ r3.2)

/-- Consecutive iterations of `loop()` continuing from a state and the trace
produced so far; every event is paired with the `currentTime` of the iteration
that produced it. -/
def runFrom (acc : State × List (Nat × Event)) :
    List (Nat × RandomDraws) → Option (State × List (Nat × Event))
  | [] => some acc
  | (t, d) :: rest =>
    match loop acc.1 t d with
    | none => none
    | some r => runFrom (r.1, acc.2 ++ r.2.map (fun e => (t, e))) rest

/-- Consecutive iterations of `loop()`, one per input `(currentTime, draws)`. -/
def runLoop (s : State) (inputs : List (Nat × RandomDraws)) :
    Option (State × List (Nat × Event)) :=
  runFrom (s, []) inputs

/-- The rotation events of a trace: time and new index of each switch. -/
def rotations (tr : List (Nat × Event)) : List (Nat × Int) :=
  tr.filterMap (fun p =>
    match p.2 with
    | Event.sensorSwitched index _ => some (p.1, index)
    | _ => none)

/-- The frames drawn, in order. -/
def framesDrawn (evs : List Event) : List Frame :=
  evs.filterMap (fun e =>
    match e with
    | Event.gaugeDrawn f => some f
    | _ => none)

/-- The `(minVal, maxVal)` pairs of the three channels. -/
def ranges (a : SensorArray) : List (ℚ × ℚ) :=
  [(a.s0.minVal, a.s0.maxVal), (a.s1.minVal, a.s1.maxVal), (a.s2.minVal, a.s2.maxVal)]

/-- The spec's `tickAngle(i, tickCount, arcStart, arcSpan)` of section 4.1,
written from its words: `arcStart - i * (arcSpan / (tickCount-1))`. -/
def tickAngleSpec (i tickCount arcStart arcSpan : ℚ) : ℚ :=
  arcStart - i * (arcSpan / (tickCount - 1))

/-! ## Helper lemmas -/

theorem usub32_add (lastFired e : Nat) (he : e < 2 ^ 32) :
    usub32 ((lastFired + e) % 2 ^ 32) lastFired = e := by
  unfold usub32 ULONG_MOD
  omega

theorem scaleMarksFrom_step (i : Int) (h : i ≤ 10) :
    scaleMarksFrom i = scaleMarkAngle i :: scaleMarksFrom (i + 1) := by
  rw [scaleMarksFrom]
  simp [h]

theorem scaleMarksFrom_done (i : Int) (h : 10 < i) : scaleMarksFrom i = [] := by
  rw [scaleMarksFrom]
  simp [h]

theorem scaleMarks_eq :
    scaleMarks = [225, 198, 171, 144, 117, 90, 63, 36, 9, -18, -45] := by
  unfold scaleMarks
  rw [scaleMarksFrom_step 0 (by norm_num), scaleMarksFrom_step _ (by norm_num),
    scaleMarksFrom_step _ (by norm_num), scaleMarksFrom_step _ (by norm_num),
    scaleMarksFrom_step _ (by norm_num), scaleMarksFrom_step _ (by norm_num),
    scaleMarksFrom_step _ (by norm_num), scaleMarksFrom_step _ (by norm_num),
    scaleMarksFrom_step _ (by norm_num), scaleMarksFrom_step _ (by norm_num),
    scaleMarksFrom_step _ (by norm_num), scaleMarksFrom_done _ (by norm_num)]
  norm_num [scaleMarkAngle]

/-- C2. The expiry test of `loop()` is wraparound-safe: for 32-bit timestamps
`lastFired` and a true elapsed time `e < 2^32`, with `now = (lastFired + e) mod 2^32`,
the unsigned difference `now - lastFired` is `e`, so each of the three tests
(intervals 5000, 7000 and 6900) holds exactly when `e` reaches the interval,
also when `now` has wrapped past zero. -/
theorem timerExpired_wraparound_safe (lastFired e : Nat)
    (_hl : lastFired < 2 ^ 32) (he : e < 2 ^ 32) :
    usub32 ((lastFired + e) % 2 ^ 32) lastFired = e ∧
    (timerExpired ((lastFired + e) % 2 ^ 32) lastFired 5000 = true ↔ 5000 ≤ e) ∧
    (timerExpired ((lastFired + e) % 2 ^ 32) lastFired SWITCH_INTERVAL = true ↔ 7000 ≤ e) ∧
    (timerExpired ((lastFired + e) % 2 ^ 32) lastFired 6900 = true ↔ 6900 ≤ e) := by
  have h := usub32_add lastFired e he
  refine ⟨h, ?_, ?_, ?_⟩ <;> simp only [timerExpired, SWITCH_INTERVAL, h, decide_eq_true_eq]

theorem timerExpired_wraparound_safe_witness :
    (4294967295 < 2 ^ 32 ∧ 5000 < 2 ^ 32) ∧
    (4294967295 + 5000) % 2 ^ 32 < 4294967295 ∧
    (timerExpired ((4294967295 + 5000) % 2 ^ 32) 4294967295 5000 = true ↔ 5000 ≤ 5000) :=
  ⟨⟨by norm_num, by norm_num⟩, by norm_num,
   (timerExpired_wraparound_safe 4294967295 5000 (by norm_num) (by norm_num)).2.1⟩

theorem percentage_of_lt (s : Sensor) (h : s.minVal < s.maxVal) :
    percentage s = some (constrain ((s.value - s.minVal) / (s.maxVal - s.minVal)) 0 1) := by
  have hd : s.maxVal - s.minVal ≠ 0 := by
    intro h0
    linarith
  simp [percentage, rawPercentage, fdiv, hd]

/-- C3. For a channel with `minVal < maxVal` the clamped percentage of
`drawGauge` exists, lies in `[0,1]`, is `0` below `minVal`, `1` above `maxVal`,
and is `(value - minVal) / (maxVal - minVal)` inside the range. -/
theorem percentage_clamped (s : Sensor) (h : s.minVal < s.maxVal) :
    ∃ p : ℚ, percentage s = some p ∧ 0 ≤ p ∧ p ≤ 1 ∧
      (s.value < s.minVal → p = 0) ∧
      (s.maxVal < s.value → p = 1) ∧
      (s.minVal ≤ s.value → s.value ≤ s.maxVal →
        p = (s.value - s.minVal) / (s.maxVal - s.minVal)) := by
  have hd : 0 < s.maxVal - s.minVal := by linarith
  refine ⟨_, percentage_of_lt s h, ?_, ?_, ?_, ?_, ?_⟩
  · unfold constrain
    split_ifs with h1 h2 <;> linarith
  · unfold constrain
    split_ifs with h1 h2 <;> linarith
  · intro hv
    have : (s.value - s.minVal) / (s.maxVal - s.minVal) < 0 :=
      div_neg_of_neg_of_pos (by linarith) hd
    simp [constrain, this]
  · intro hv
    have h1 : 1 < (s.value - s.minVal) / (s.maxVal - s.minVal) := by
      rw [one_lt_div hd]
      linarith
    have h0 : ¬ (s.value - s.minVal) / (s.maxVal - s.minVal) < 0 := by linarith
    simp [constrain, h0, h1]
  · intro hlo hhi
    have h0 : ¬ (s.value - s.minVal) / (s.maxVal - s.minVal) < 0 :=
      not_lt.mpr (div_nonneg (by linarith) hd.le)
    have h1 : ¬ (s.value - s.minVal) / (s.maxVal - s.minVal) > 1 := by
      rw [gt_iff_lt, not_lt, div_le_one hd]
      linarith
    simp only [constrain, if_neg h0, if_neg h1]

theorem percentage_clamped_witness :
    sensors.s2.minVal < sensors.s2.maxVal ∧
    percentage { sensors.s2 with value := 1200 } = some 1 := by
  have hlt : ({ sensors.s2 with value := 1200 } : Sensor).minVal
      < ({ sensors.s2 with value := 1200 } : Sensor).maxVal := by norm_num [sensors]
  obtain ⟨p, hp, -, -, -, h1, -⟩ := percentage_clamped _ hlt
  refine ⟨by norm_num [sensors], ?_⟩
  rw [hp, h1 (by norm_num [sensors])]

/-- C4. The needle angle of `drawGauge` is `225 - 270 * p`: affine in the
percentage `p`, strictly decreasing, `225` at `p = 0`, `-45` at `p = 1`, and
inside `[-45, 225]` for every `p` in `[0,1]`. -/
theorem needleAngle_linear_decreasing :
    (∀ p : ℚ, needleAngle p = 225 - 270 * p) ∧
    (∀ p q t : ℚ, needleAngle ((1 - t) * p + t * q)
        = (1 - t) * needleAngle p + t * needleAngle q) ∧
    (∀ p1 p2 : ℚ, p1 < p2 → needleAngle p2 < needleAngle p1) ∧
    needleAngle 0 = 225 ∧ needleAngle 1 = -45 ∧
    (∀ p : ℚ, 0 ≤ p → p ≤ 1 → -45 ≤ needleAngle p ∧ needleAngle p ≤ 225) := by
  refine ⟨?_, ?_, ?_, ?_, ?_, ?_⟩
  · intro p
    unfold needleAngle
    ring
  · intro p q t
    unfold needleAngle
    ring
  · intro p1 p2 h
    unfold needleAngle
    linarith
  · norm_num [needleAngle]
  · norm_num [needleAngle]
  · intro p h0 h1
    unfold needleAngle
    constructor <;> linarith

theorem needleAngle_linear_decreasing_witness :
    needleAngle (3 / 4) < needleAngle (1 / 4) :=
  needleAngle_linear_decreasing.2.2.1 (1 / 4) (3 / 4) (by norm_num)

theorem drawGauge_of_get (a : SensorArray) (i : Int) (s : Sensor)
    (hget : a.get? i = some s) :
    drawGauge a i = some
      { sensorIndex := i, scaleMarks := scaleMarks, percentage := percentage s,
        needleAngle := (percentage s).map needleAngle, needleColor := s.color,
        name := s.name, value := s.value, unit := s.unit,
        minVal := s.minVal, maxVal := s.maxVal } := by
  simp [drawGauge, hget]

/-- C8. For a channel with `minVal < maxVal` and `value` inside
`[minVal, maxVal]`, `drawGauge` draws the needle at
`225 - 270 * (value - minVal) / (maxVal - minVal)`; a channel with range
`0..100` and value `50` gives percentage `1/2` and needle angle `90`. -/
theorem drawGauge_value_to_angle (a : SensorArray) (i : Int) (s : Sensor)
    (hget : a.get? i = some s) (hlt : s.minVal < s.maxVal)
    (hlo : s.minVal ≤ s.value) (hhi : s.value ≤ s.maxVal) :
    (∃ f : Frame, drawGauge a i = some f ∧
      f.percentage = some ((s.value - s.minVal) / (s.maxVal - s.minVal)) ∧
      f.needleAngle = some (225 - 270 * ((s.value - s.minVal) / (s.maxVal - s.minVal)))) ∧
    (∀ (n u : String) (c : Color),
      percentage { name := n, value := 50, minVal := 0, maxVal := 100, unit := u, color := c }
        = some (1 / 2) ∧
      (percentage { name := n, value := 50, minVal := 0, maxVal := 100, unit := u,
                    color := c }).map needleAngle = some 90) := by
  have hd : 0 < s.maxVal - s.minVal := by linarith
  have h0 : ¬ (s.value - s.minVal) / (s.maxVal - s.minVal) < 0 :=
    not_lt.mpr (div_nonneg (by linarith) hd.le)
  have h1 : ¬ (s.value - s.minVal) / (s.maxVal - s.minVal) > 1 := by
    rw [gt_iff_lt, not_lt, div_le_one hd]
    linarith
  have hp : percentage s = some ((s.value - s.minVal) / (s.maxVal - s.minVal)) := by
    rw [percentage_of_lt s hlt]
    simp only [constrain, if_neg h0, if_neg h1]
  constructor
  · refine ⟨_, drawGauge_of_get a i s hget, ?_, ?_⟩
    · exact hp
    · simp only [hp, Option.map_some', needleAngle]
      congr 1
      ring
  · intro n u c
    have hp50 :
        percentage { name := n, value := 50, minVal := 0, maxVal := 100, unit := u, color := c }
          = some (1 / 2) := by
      rw [percentage_of_lt _ (by norm_num)]
      norm_num [constrain]
    refine ⟨hp50, ?_⟩
    rw [hp50]
    norm_num [needleAngle]

theorem drawGauge_value_to_angle_witness :
    ∃ f : Frame,
      drawGauge { sensors with s0 := { sensors.s0 with value := 50 } } 0 = some f ∧
      f.percentage = some ((50 - 0) / (100 - 0)) ∧
      f.needleAngle = some (225 - 270 * ((50 - 0) / (100 - 0))) :=
  (drawGauge_value_to_angle { sensors with s0 := { sensors.s0 with value := 50 } } 0
    { sensors.s0 with value := 50 } (by simp [SensorArray.get?])
    (by norm_num [sensors]) (by norm_num [sensors]) (by norm_num [sensors])).1

/-- C9. The scale-mark loop of `drawGauge` draws exactly 11 marks; mark `i`
(for `i = 0..10`) is at `225 - i * 27` degrees, which is the spec's
`tickAngle(i, 11, 225, 270)`; the first mark is at `225`, the last at `-45`,
and consecutive marks are `27` degrees apart. -/
theorem scaleMarks_layout :
    scaleMarks.length = 11 ∧
    (∀ i : Nat, i ≤ 10 →
      scaleMarks[i]? = some (scaleMarkAngle i) ∧
      scaleMarkAngle i = 225 - (i : ℚ) * 27 ∧
      scaleMarkAngle i = tickAngleSpec i 11 225 270) ∧
    scaleMarks.head? = some 225 ∧
    scaleMarks.getLast? = some (-45) ∧
    (∀ i : Nat, i < 10 → ∃ x y : ℚ,
      scaleMarks[i]? = some x ∧ scaleMarks[i + 1]? = some y ∧ x - y = 27) := by
  refine ⟨?_, ?_, ?_, ?_, ?_⟩
  · simp [scaleMarks_eq]
  · intro i hi
    interval_cases i <;>
      refine ⟨?_, ?_, ?_⟩ <;>
      norm_num [scaleMarks_eq, scaleMarkAngle, tickAngleSpec]
  · simp [scaleMarks_eq]
  · simp [scaleMarks_eq]
  · intro i hi
    interval_cases i <;> norm_num [scaleMarks_eq]

theorem scaleMarks_layout_witness :
    scaleMarks[10]? = some (scaleMarkAngle (10 : Nat)) ∧
    scaleMarkAngle (10 : Nat) = 225 - ((10 : Nat) : ℚ) * 27 ∧
    scaleMarkAngle (10 : Nat) = tickAngleSpec (10 : Nat) 11 225 270 :=
  scaleMarks_layout.2.1 10 (by norm_num)


/-! ## The control loop -/

theorem loop_spec (s : State) (t : Nat) (d : RandomDraws)
    (h0 : 0 ≤ s.currentSensor) (h3 : s.currentSensor < 3) :
    ∃ r, loop s t d = some r ∧
      r.1.currentSensor = (if timerExpired t s.lastSwitchTime SWITCH_INTERVAL = true
        then (s.currentSensor + 1) % 3 else s.currentSensor) ∧
      r.1.lastSwitchTime = (if timerExpired t s.lastSwitchTime SWITCH_INTERVAL = true
        then t else s.lastSwitchTime) ∧
      rotations (r.2.map (fun e => (t, e))) =
        (if timerExpired t s.lastSwitchTime SWITCH_INTERVAL = true
          then [(t, (s.currentSensor + 1) % 3)] else []) ∧
      (∀ f, Event.gaugeDrawn f ∈ r.2 → f.sensorIndex = r.1.currentSensor) ∧
      ranges r.1.sensors = ranges s.sensors := by
  obtain ⟨sens, cur, lsw, lup, lrd⟩ := s
  simp only at h0 h3 ⊢
  have hc : cur = 0 ∨ cur = 1 ∨ cur = 2 := by omega
  rcases hc with rfl | rfl | rfl <;>
    by_cases e1 : timerExpired t lup 5000 = true <;>
    by_cases e2 : timerExpired t lsw SWITCH_INTERVAL = true <;>
    by_cases e3 : timerExpired t lrd 6900 = true <;>
    simp [loop, refreshStep, rotationStep, redrawStep, drawGauge, SensorArray.get?,
      e1, e2, e3, rotations, ranges, updateSensorValues, Int.tmod]

theorem runFrom_invariant (I : State → List (Nat × Event) → Prop)
    (hstep : ∀ s tr t d, I s tr →
      ∃ r, loop s t d = some r ∧ I r.1 (tr ++ r.2.map (fun e => (t, e))))
    (inputs : List (Nat × RandomDraws)) :
    ∀ acc : State × List (Nat × Event), I acc.1 acc.2 →
      ∃ q, runFrom acc inputs = some q ∧ I q.1 q.2 := by
  induction inputs with
  | nil =>
    intro acc h
    exact ⟨acc, rfl, h⟩
  | cons x rest ih =>
    intro acc h
    obtain ⟨t, d⟩ := x
    obtain ⟨r, hr, hI⟩ := hstep acc.1 acc.2 t d h
    simp only [runFrom, hr]
    exact ih (r.1, acc.2 ++ r.2.map (fun e => (t, e))) hI

/-- C10. One iteration of `loop()` from a valid index, for every combination
of the three timers, each tested on its own against the same `currentTime` and
in the order refresh, rotation, redraw:
* the refresh block fires exactly when its timer is expired; it overwrites the
  three channel values with the draws divided by ten, keeps every other field
  of the channels, and logs the new values;
* the rotation block fires exactly when its timer is expired; it moves
  `currentSensor` to `(currentSensor + 1) mod 3` and draws that channel from the
  channel values left by the refresh block, then logs the switch;
* the redraw block fires exactly when its timer is expired and draws the
  channel selected by the rotation block, from the same channel values: the
  same frame as the rotation's draw;
* a timer that fired has its timestamp set to `currentTime`, the others keep
  theirs.
When all three are expired the events are: values log, draw, switch log, the
identical draw again, the frame shows the refreshed value of the new channel,
and the three timestamps equal `currentTime`. -/
theorem loop_timer_ordering (s : State) (t : Nat) (d : RandomDraws) (e1 e2 e3 : Bool)
    (h0 : 0 ≤ s.currentSensor) (h3 : s.currentSensor < 3)
    (he1 : timerExpired t s.lastUpdateTime 5000 = e1)
    (he2 : timerExpired t s.lastSwitchTime SWITCH_INTERVAL = e2)
    (he3 : timerExpired t s.lastRedrawTime 6900 = e3) :
    ∃ (a1 : SensorArray) (c1 : Int) (shown : Sensor) (f : Frame),
      a1 = (if e1 = true then
          { s0 := { name := s.sensors.s0.name, value := (d.r0 : ℚ) / 10,
                    minVal := s.sensors.s0.minVal, maxVal := s.sensors.s0.maxVal,
                    unit := s.sensors.s0.unit, color := s.sensors.s0.color }
            s1 := { name := s.sensors.s1.name, value := (d.r1 : ℚ) / 10,
                    minVal := s.sensors.s1.minVal, maxVal := s.sensors.s1.maxVal,
                    unit := s.sensors.s1.unit, color := s.sensors.s1.color }
            s2 := { name := s.sensors.s2.name, value := (d.r2 : ℚ) / 10,
                    minVal := s.sensors.s2.minVal, maxVal := s.sensors.s2.maxVal,
                    unit := s.sensors.s2.unit, color := s.sensors.s2.color } }
        else s.sensors) ∧
      c1 = (if e2 = true then (s.currentSensor + 1) % 3 else s.currentSensor) ∧
      shown = (if c1 = 0 then a1.s0 else if c1 = 1 then a1.s1 else a1.s2) ∧
      f = { sensorIndex := c1, scaleMarks := scaleMarks,
            percentage := percentage shown,
            needleAngle := (percentage shown).map needleAngle,
            needleColor := shown.color, name := shown.name, value := shown.value,
            unit := shown.unit, minVal := shown.minVal, maxVal := shown.maxVal } ∧
      loop s t d = some
        ({ sensors := a1
           currentSensor := c1
           lastSwitchTime := if e2 = true then t else s.lastSwitchTime
           lastUpdateTime := if e1 = true then t else s.lastUpdateTime
           lastRedrawTime := if e3 = true then t else s.lastRedrawTime },
         (if e1 = true then
            [Event.valuesLogged a1.s0.name a1.s0.value a1.s1.name a1.s1.value
              a1.s2.name a1.s2.value]
          else []) ++
         (if e2 = true then [Event.gaugeDrawn f, Event.sensorSwitched c1 shown.name]
          else []) ++
         (if e3 = true then [Event.gaugeDrawn f] else [])) ∧
      (e1 = true → e2 = true → e3 = true →
        loop s t d = some
          ({ sensors := a1
             currentSensor := (s.currentSensor + 1) % 3
             lastSwitchTime := t
             lastUpdateTime := t
             lastRedrawTime := t },
           [Event.valuesLogged s.sensors.s0.name ((d.r0 : ℚ) / 10)
              s.sensors.s1.name ((d.r1 : ℚ) / 10) s.sensors.s2.name ((d.r2 : ℚ) / 10),
            Event.gaugeDrawn f,
            Event.sensorSwitched ((s.currentSensor + 1) % 3) shown.name,
            Event.gaugeDrawn f]) ∧
        a1.s0.value = (d.r0 : ℚ) / 10 ∧ a1.s1.value = (d.r1 : ℚ) / 10 ∧
        a1.s2.value = (d.r2 : ℚ) / 10 ∧
        f.sensorIndex = (s.currentSensor + 1) % 3 ∧
        f.value = (if (s.currentSensor + 1) % 3 = 0 then (d.r0 : ℚ) / 10
          else if (s.currentSensor + 1) % 3 = 1 then (d.r1 : ℚ) / 10
          else (d.r2 : ℚ) / 10)) := by
  obtain ⟨sens, cur, lsw, lup, lrd⟩ := s
  simp only at h0 h3 he1 he2 he3 ⊢
  refine ⟨_, _, _, _, rfl, rfl, rfl, rfl, ?_⟩
  have hc : cur = 0 ∨ cur = 1 ∨ cur = 2 := by omega
  rcases hc with rfl | rfl | rfl <;>
    cases e1 <;> cases e2 <;> cases e3 <;>
    simp [loop, refreshStep, rotationStep, redrawStep, drawGauge, SensorArray.get?,
      he1, he2, he3, updateSensorValues, Int.tmod]

theorem loop_timer_ordering_witness :
    (∃ r, loop initialState 7000 ⟨200, 500, 10000⟩ = some r ∧
      r.1.currentSensor = 1 ∧ r.1.sensors.s1.value = 50 ∧
      r.1.lastUpdateTime = 7000 ∧ r.1.lastSwitchTime = 7000 ∧
      r.1.lastRedrawTime = 7000 ∧ r.2.length = 4) ∧
    (∃ r, loop initialState 5000 ⟨200, 500, 10000⟩ = some r ∧
      r.1.currentSensor = 0 ∧ r.1.sensors.s1.value = 50 ∧
      r.1.lastUpdateTime = 5000 ∧ r.1.lastSwitchTime = 0 ∧
      r.1.lastRedrawTime = 0 ∧ r.2.length = 1) := by
  constructor
  · obtain ⟨a1, c1, shown, f, ha, hc, -, -, hloop, -⟩ :=
      loop_timer_ordering initialState 7000 ⟨200, 500, 10000⟩ true true true
        (by decide) (by decide) (by decide) (by decide) (by decide)
    refine ⟨_, hloop, ?_⟩
    subst ha hc
    norm_num [initialState]
  · obtain ⟨a1, c1, shown, f, ha, hc, -, -, hloop, -⟩ :=
      loop_timer_ordering initialState 5000 ⟨200, 500, 10000⟩ true false false
        (by decide) (by decide) (by decide) (by decide) (by decide)
    refine ⟨_, hloop, ?_⟩
    subst ha hc
    norm_num [initialState]

/-- C5. From any state with `currentSensor = 0`, every sequence of `loop()`
iterations, at arbitrary times and with arbitrary sensor draws, runs without an
out-of-range access and ends with `0 ≤ currentSensor < 3`, so that
`sensors[currentSensor]` and `drawGauge(currentSensor)` are defined; every
frame drawn on the way was drawn for an index in `0..2`. -/
theorem currentSensor_in_range (s0 : State) (inputs : List (Nat × RandomDraws))
    (hinit : s0.currentSensor = 0) :
    ∃ q, runLoop s0 inputs = some q ∧
      0 ≤ q.1.currentSensor ∧ q.1.currentSensor < 3 ∧
      (∃ sensor, q.1.sensors.get? q.1.currentSensor = some sensor) ∧
      (∃ f, drawGauge q.1.sensors q.1.currentSensor = some f) ∧
      (∀ t f, (t, Event.gaugeDrawn f) ∈ q.2 → 0 ≤ f.sensorIndex ∧ f.sensorIndex < 3) := by
  have hrun := runFrom_invariant
    (fun s tr => (0 ≤ s.currentSensor ∧ s.currentSensor < 3) ∧
      ∀ t f, (t, Event.gaugeDrawn f) ∈ tr → 0 ≤ f.sensorIndex ∧ f.sensorIndex < 3)
    (by
      intro s tr t d hI
      obtain ⟨⟨h0, h3⟩, hfr⟩ := hI
      obtain ⟨r, hr, hc, -, -, hdrawn, -⟩ := loop_spec s t d h0 h3
      have hrange : 0 ≤ r.1.currentSensor ∧ r.1.currentSensor < 3 := by
        split_ifs at hc <;> omega
      refine ⟨r, hr, hrange, ?_⟩
      intro u f hmem
      rcases List.mem_append.mp hmem with hold | hnew
      · exact hfr u f hold
      · obtain ⟨e, he, heq⟩ := List.mem_map.mp hnew
        have he2 : e = Event.gaugeDrawn f := (Prod.mk.inj heq).2
        rw [he2] at he
        rw [hdrawn f he]
        exact hrange)
    inputs (s0, [])
    (by
      refine ⟨⟨?_, ?_⟩, ?_⟩
      · simp [hinit]
      · simp [hinit]
      · intro t f hmem
        simp at hmem)
  obtain ⟨q, hq, ⟨h0, h3⟩, hfr⟩ := hrun
  have hget : ∃ sensor, q.1.sensors.get? q.1.currentSensor = some sensor := by
    have hc : q.1.currentSensor = 0 ∨ q.1.currentSensor = 1 ∨ q.1.currentSensor = 2 := by
      omega
    rcases hc with h | h | h <;> simp [SensorArray.get?, h]
  obtain ⟨sensor, hsensor⟩ := hget
  exact ⟨q, hq, h0, h3, ⟨sensor, hsensor⟩, ⟨_, drawGauge_of_get _ _ _ hsensor⟩, hfr⟩

theorem currentSensor_in_range_witness :
    ∃ q, runLoop initialState [(7000, ⟨200, 500, 10000⟩), (4294967295, ⟨1, 2, 3⟩),
        (5, ⟨150, 300, 9800⟩)] = some q ∧
      0 ≤ q.1.currentSensor ∧ q.1.currentSensor < 3 ∧
      (∃ sensor, q.1.sensors.get? q.1.currentSensor = some sensor) ∧
      (∃ f, drawGauge q.1.sensors q.1.currentSensor = some f) ∧
      (∀ t f, (t, Event.gaugeDrawn f) ∈ q.2 → 0 ≤ f.sensorIndex ∧ f.sensorIndex < 3) :=
  currentSensor_in_range initialState _ (by decide)


theorem setup_spec (now : Nat) (d : RandomDraws) :
    ∃ p, setup initialState now d = some p ∧ p.1.currentSensor = 0 ∧
      p.1.lastSwitchTime = now ∧ ranges p.1.sensors = ranges sensors := by
  simp [setup, initialState, drawGauge, SensorArray.get?, ranges, updateSensorValues]

theorem ranges_positive (a : SensorArray) (h : ranges a = ranges sensors)
    (i : Int) (sensor : Sensor) (hget : a.get? i = some sensor) :
    sensor.minVal < sensor.maxVal := by
  simp only [ranges, sensors, List.cons.injEq, Prod.mk.injEq, and_true] at h
  obtain ⟨⟨h0a, h0b⟩, ⟨h1a, h1b⟩, h2a, h2b⟩ := h
  unfold SensorArray.get? at hget
  split_ifs at hget <;> cases hget
  · rw [h0a, h0b]
    norm_num
  · rw [h1a, h1b]
    norm_num
  · rw [h2a, h2b]
    norm_num

/-- C7 as stated fails: a channel with `minVal == maxVal` is constructed
without any error, and `drawGauge` on it evaluates the percentage with a zero
denominator (no value for the percentage, none for the needle angle). -/
theorem makeSensor_accepts_equal_bounds :
    ∃ s, makeSensor "Flat" 5 5 5 "u" Color.red = Except.ok s ∧
      s.minVal = s.maxVal ∧ s.maxVal - s.minVal = 0 ∧ rawPercentage s = none ∧
      ∃ f, drawGauge { s0 := s, s1 := s, s2 := s } 0 = some f ∧ f.needleAngle = none := by
  refine ⟨_, rfl, rfl, by norm_num, ?_, _, rfl, ?_⟩
  · simp [rawPercentage, fdiv]
  · simp [SensorArray.get?, percentage, rawPercentage, fdiv]

/-- C7, amended. Constructing a channel never fails and stores the bounds it
is given, equal or not.  The three channels configured by the sketch have
`minVal < maxVal`, and `setup()` and `loop()` leave the bounds unchanged: in
every state reached from `setup()` by iterations of `loop()`, each channel has
`minVal < maxVal` and the percentage division of `drawGauge` has a non-zero
denominator. -/
theorem configured_ranges_never_degenerate (now : Nat) (d0 : RandomDraws)
    (inputs : List (Nat × RandomDraws)) :
    (∀ (name : String) (value minVal maxVal : ℚ) (unit : String) (color : Color),
      ∃ s, makeSensor name value minVal maxVal unit color = Except.ok s ∧
        s.minVal = minVal ∧ s.maxVal = maxVal) ∧
    ∃ p q, setup initialState now d0 = some p ∧ runLoop p.1 inputs = some q ∧
      ∀ i sensor, q.1.sensors.get? i = some sensor →
        sensor.minVal < sensor.maxVal ∧ sensor.maxVal - sensor.minVal ≠ 0 ∧
        ∃ x, rawPercentage sensor = some x := by
  constructor
  · intro name value minVal maxVal unit color
    exact ⟨_, rfl, rfl, rfl⟩
  · obtain ⟨p, hp, hcur, -, hranges⟩ := setup_spec now d0
    have hrun := runFrom_invariant
      (fun s _ => (0 ≤ s.currentSensor ∧ s.currentSensor < 3) ∧
        ranges s.sensors = ranges sensors)
      (by
        intro s tr t d hI
        obtain ⟨⟨h0, h3⟩, hr⟩ := hI
        obtain ⟨r, hloop, hc, -, -, -, hkeep⟩ := loop_spec s t d h0 h3
        refine ⟨r, hloop, ?_, hkeep.trans hr⟩
        split_ifs at hc <;> omega)
      inputs (p.1, []) ⟨by simp [hcur], hranges⟩
    obtain ⟨q, hq, -, hqr⟩ := hrun
    refine ⟨p, q, hp, hq, ?_⟩
    intro i sensor hget
    have hlt := ranges_positive q.1.sensors hqr i sensor hget
    have hne : sensor.maxVal - sensor.minVal ≠ 0 := by
      intro h0
      linarith
    refine ⟨hlt, hne, (sensor.value - sensor.minVal) / (sensor.maxVal - sensor.minVal), ?_⟩
    simp [rawPercentage, fdiv, hne]


end TFTGauge
